import Mathlib

/-!
Verification development for the identity-issuance subsystem of
k8s-provisioner (internal/user/user.go and cmd/user.go).

The Go code is shallowly embedded: the Kubernetes API server and the local
filesystem are modelled as explicit state (`World`), the entropy source and
the CA's certificate-issuance behaviour as an explicit environment (`Env`),
and each Go function becomes a Lean function of the same name over that
state.  Machine integers are `Int` with explicit two's-complement wrapping
where the Go code converts between widths.
-/

/-! ## Data model: configurations, subjects, bindings (internal/user/user.go) -/

/-- UserConfig mirrors the Go struct `UserConfig` (the `Namespace` field is
renamed `namespaceName` because `namespace` is a Lean keyword). -/
structure UserConfig where
  username : String
  groups : List String
  namespaceName : String
  clusterRole : String
  role : String
  expiration : Int
deriving DecidableEq, Repr

/-- An RBAC subject, as built by `createClusterRoleBinding` / `createRoleBinding`. -/
structure Subject where
  kind : String
  name : String
  apiGroup : String
deriving DecidableEq, Repr

/-- A role reference. -/
structure RoleRef where
  kind : String
  name : String
  apiGroup : String
deriving DecidableEq, Repr

/-- A (cluster) role binding object: name, subjects, role reference. -/
structure Binding where
  name : String
  subjects : List Subject
  roleRef : RoleRef
deriving DecidableEq, Repr

/-- The `User` subject the Go code puts first in every binding. -/
def userSubject (username : String) : Subject :=
  { kind := "User", name := username, apiGroup := "rbac.authorization.k8s.io" }

/-- One `Group` subject per requested group. -/
def groupSubject (g : String) : Subject :=
  { kind := "Group", name := g, apiGroup := "rbac.authorization.k8s.io" }

/-- The ClusterRoleBinding built by `createClusterRoleBinding`: named
`{username}-{clusterRole}-binding`, subjects = the user then one per group. -/
def clusterRoleBindingFor (username : String) (groups : List String) (clusterRole : String) : Binding :=
  { name := username ++ "-" ++ clusterRole ++ "-binding"
    subjects := userSubject username :: groups.map groupSubject
    roleRef := { kind := "ClusterRole", name := clusterRole, apiGroup := "rbac.authorization.k8s.io" } }

/-- The RoleBinding built by `createRoleBinding`: named
`{username}-{role}-binding`, subjects = the user then one per group. -/
def roleBindingFor (username : String) (groups : List String) (role : String) : Binding :=
  { name := username ++ "-" ++ role ++ "-binding"
    subjects := userSubject username :: groups.map groupSubject
    roleRef := { kind := "Role", name := role, apiGroup := "rbac.authorization.k8s.io" } }

/-- Errors the modelled Kubernetes authorization store can return. -/
inductive StoreErr where
  | alreadyExists
  | notFound
  | other (msg : String)
deriving DecidableEq, Repr

/-- Whether the store error's message contains "already exists" (the Go code
tests `strings.Contains(err.Error(), "already exists")`; in the Kubernetes
API exactly the AlreadyExists error carries that message). -/
def errMentionsAlreadyExists : StoreErr → Bool
  | .alreadyExists => true
  | _ => false

/-- The API server's create for cluster role bindings: fails with
AlreadyExists when a binding of the same name is present, else appends. -/
def apiCreateClusterRoleBinding (store : List Binding) (b : Binding) :
    Except StoreErr (List Binding) :=
  if store.any (fun x => x.name == b.name) then .error .alreadyExists
  else .ok (store ++ [b])

/-- Function `createClusterRoleBinding` from user.go: builds the binding, creates it,
and treats an "already exists" error as success (returning the store as-is). -/
def createClusterRoleBinding (store : List Binding) (username : String)
    (groups : List String) (clusterRole : String) :
    Except StoreErr Unit × List Binding :=
  match apiCreateClusterRoleBinding store (clusterRoleBindingFor username groups clusterRole) with
  | .ok s => (.ok (), s)
  | .error e => if errMentionsAlreadyExists e then (.ok (), store) else (.error e, store)

/-- The API server's create for namespaced role bindings (a store entry is a
(namespace, binding) pair; the name must be free within the namespace). -/
def apiCreateRoleBinding (store : List (String × Binding)) (ns : String) (b : Binding) :
    Except StoreErr (List (String × Binding)) :=
  if store.any (fun x => x.1 == ns && x.2.name == b.name) then .error .alreadyExists
  else .ok (store ++ [(ns, b)])

/-- Function `createRoleBinding` from user.go: namespace-scoped analogue of
`createClusterRoleBinding`, with the same "already exists" tolerance. -/
def createRoleBinding (store : List (String × Binding)) (username : String)
    (groups : List String) (role : String) (ns : String) :
    Except StoreErr Unit × List (String × Binding) :=
  match apiCreateRoleBinding store ns (roleBindingFor username groups role) with
  | .ok s => (.ok (), s)
  | .error e => if errMentionsAlreadyExists e then (.ok (), store) else (.error e, store)

/-! ## Key material and CSR subject (`createCSR`, user.go) -/

/-- The subject of the certificate signing request built by `createCSR`. -/
structure CertificateRequest where
  commonName : String
  organization : List String
deriving DecidableEq, Repr

/-- Function `createCSR` from user.go, restricted to the subject it encodes:
common name is the username, and the organization list is set to `groups`
only when `groups` is non-empty (otherwise it stays empty). -/
def createCSR (username : String) (groups : List String) : CertificateRequest :=
  let subject : CertificateRequest := { commonName := username, organization := [] }
  let subject := if groups.length > 0 then { subject with organization := groups } else subject
  subject

/-- The key size passed to `rsa.GenerateKey` in `CreateUser`. -/
def rsaKeyBits : Nat := 2048

/-! ## Certificate lifetime arithmetic (`submitCSR`, user.go) -/

/-- Two's-complement wrap of an integer into signed 32 bits, the effect of
Go's `int32(...)` conversion. -/
def toInt32 (n : Int) : Int := (n + 2 ^ 31) % 2 ^ 32 - 2 ^ 31

/-- Two's-complement wrap into signed 64 bits, the width of Go's `int` on
the targeted platforms. -/
def toInt64 (n : Int) : Int := (n + 2 ^ 63) % 2 ^ 64 - 2 ^ 63

/-- The product `expirationSeconds := expirationDays * 24 * 60 * 60` computed in Go `int`. -/
def expirationSecondsOf (days : Int) : Int := toInt64 (days * 24 * 60 * 60)

/-- The value `submitCSR` places in the CSR spec:
`expiration := int32(expirationSeconds)`. -/
def submittedExpirationOf (days : Int) : Int := toInt32 (expirationSecondsOf days)

/-! ## Credential bundle (`createKubeconfig`, user.go) -/

/-- A cluster entry of a kubeconfig. -/
structure KubeCluster where
  server : String
  caData : List Nat
deriving DecidableEq, Repr

/-- A context entry of a kubeconfig. -/
structure KubeContext where
  cluster : String
  authInfo : String
deriving DecidableEq, Repr

/-- A credential (AuthInfo) entry of a kubeconfig. -/
structure KubeAuthInfo where
  certData : List Nat
  keyData : List Nat
deriving DecidableEq, Repr

/-- A kubeconfig file: named clusters, credentials and contexts plus the
active (current) context, as in client-go's `api.Config`. -/
structure Kubeconfig where
  clusters : List (String × KubeCluster)
  authInfos : List (String × KubeAuthInfo)
  contexts : List (String × KubeContext)
  currentContext : String
deriving DecidableEq, Repr

/-- Association-list lookup used to model the kubeconfig maps and the
registry directory. -/
def alookup {α : Type} (k : String) : List (String × α) → Option α
  | [] => none
  | (k', v) :: t => if k' = k then some v else alookup k t

/-- Function `createKubeconfig` from user.go.  The Go function reads the key and
certificate files it just wrote; here those bytes are passed as `keyData`
and `certData`.  It resolves the reference kubeconfig's current context to
a cluster and emits a fresh config with exactly that cluster, the user's
credentials, and one context `{username}@{clusterName}` set current. -/
def createKubeconfig (username : String) (keyData certData : List Nat)
    (ref : Kubeconfig) : Except String Kubeconfig :=
  let currentContext := ref.currentContext
  if currentContext = "" then .error "no current context in kubeconfig"
  else
    match alookup currentContext ref.contexts with
    | none => .error ("context not found: " ++ currentContext)
    | some contextConfig =>
      match alookup contextConfig.cluster ref.clusters with
      | none => .error ("cluster not found: " ++ contextConfig.cluster)
      | some clusterConfig =>
        let clusterName := contextConfig.cluster
        let contextName := username ++ "@" ++ clusterName
        .ok { clusters := [(clusterName, { server := clusterConfig.server, caData := clusterConfig.caData })]
              authInfos := [(username, { certData := certData, keyData := keyData })]
              contexts := [(contextName, { cluster := clusterName, authInfo := username })]
              currentContext := contextName }

/-- The active cluster context the reference bundle selects: the current
context resolved through the contexts map to a named cluster, `none` when
any link of that chain is missing. -/
def activeClusterOf (ref : Kubeconfig) : Option (String × KubeCluster) :=
  if ref.currentContext = "" then none
  else
    match alookup ref.currentContext ref.contexts with
    | none => none
    | some ctx =>
      match alookup ctx.cluster ref.clusters with
      | none => none
      | some cl => some (ctx.cluster, cl)

/-! ## The world state and environment of `CreateUser` / `DeleteUser` -/

/-- The files of one registry sub-directory `{outputDir}/{username}`:
`{username}.key`, `{username}.csr`, `{username}.crt`, `{username}.kubeconfig`. -/
structure UserFiles where
  keyFile : Option (List Nat)
  csrFile : Option CertificateRequest
  crtFile : Option (List Nat)
  kubeconfigFile : Option Kubeconfig
deriving DecidableEq, Repr

/-- A directory freshly created by `os.MkdirAll`: no files yet. -/
def UserFiles.empty : UserFiles :=
  { keyFile := none, csrFile := none, crtFile := none, kubeconfigFile := none }

/-- The mutable state the subsystem acts on: the local registry directory
tree, the CSR objects, the RBAC stores and the namespace list of the
cluster. -/
structure World where
  registry : List (String × UserFiles)
  csrNames : List String
  clusterRoleBindings : List Binding
  namespaces : List String
  roleBindings : List (String × Binding)
deriving DecidableEq, Repr

/-- Effect of `os.MkdirAll` on the user's registry directory: creates it when absent,
leaves existing contents alone. -/
def mkdirAllUserDir (w : World) (u : String) : World :=
  if (alookup u w.registry).isSome then w
  else { w with registry := w.registry ++ [(u, UserFiles.empty)] }

/-- Apply a file-system write to the directory named `u` in the registry
tree (the other directories are untouched). -/
def updateReg {α : Type} (u : String) (fn : α → α) : List (String × α) → List (String × α)
  | [] => []
  | (k, a) :: t => if k = u then (k, fn a) :: updateReg u fn t else (k, a) :: updateReg u fn t

/-- Write (or overwrite) one file in the user's registry directory. -/
def updateUserFiles (w : World) (u : String) (fn : UserFiles → UserFiles) : World :=
  { w with registry := updateReg u fn w.registry }

/-- Whether the bundle (kubeconfig) file exists for a username. -/
def bundleFileExists (w : World) (u : String) : Bool :=
  match alookup u w.registry with
  | some f => f.kubeconfigFile.isSome
  | none => false

/-- The run's environment: the entropy source's key material, the CA's
certificate status as a function of the poll second, and the operator's
reference kubeconfig. -/
structure Env where
  keyPem : List Nat
  statusCertificate : Nat → List Nat
  refKubeconfig : Kubeconfig

/-- Function `waitForCertificate` from user.go: polls once per second while the
deadline has not passed; returns the certificate bytes as soon as
`len(csr.Status.Certificate) > 0`, `none` (the timeout error) otherwise.
`fuel` is the number of whole seconds left before the deadline. -/
def waitForCertificate (statusCert : Nat → List Nat) (now : Nat) : Nat → Option (List Nat)
  | 0 => none
  | fuel + 1 =>
    let c := statusCert now
    if c.length > 0 then some c else waitForCertificate statusCert (now + 1) fuel

/-- The 30-second timeout `CreateUser` passes to `waitForCertificate`. -/
def certTimeoutSeconds : Nat := 30

/-- The observable steps of an identity-creation run, in the order the code
performs them. -/
inductive Step where
  | validate
  | mkdirRegistry
  | genKey
  | persistKey
  | buildCSR
  | persistCSR
  | submitCSR
  | approveCSR
  | waitCert
  | persistCert
  | buildBundle
  | persistBundle
  | bindClusterRole
  | bindNamespaceRole
  | cleanupCSR
deriving DecidableEq, Repr

/-- The errors an identity-creation run can end with. -/
inductive CreateErr where
  | validationFailed (msg : String)
  | certificateTimeout
  | kubeconfigFailed (msg : String)
  | storeFailed (e : StoreErr)
deriving Repr

/-- Outcome, final world and step trace of one run. -/
structure RunResult where
  outcome : Except CreateErr Unit
  world : World
  trace : List Step

/-- The trace prefix up to and including the certificate wait. -/
def traceThroughWait : List Step :=
  [Step.mkdirRegistry, Step.genKey, Step.persistKey, Step.buildCSR, Step.persistCSR,
   Step.submitCSR, Step.approveCSR, Step.waitCert]

/-- Tail of `CreateUser`: deletes the transient CSR object from the cluster
(best effort) and reports success. -/
def cleanupAndFinish (cfg : UserConfig) (w : World) (tr : List Step) : RunResult :=
  let csrName := cfg.username ++ "-csr"
  let w' := { w with csrNames := w.csrNames.filter (fun n => !(n == csrName)) }
  { outcome := .ok (), world := w', trace := tr ++ [Step.cleanupCSR] }

/-- The namespace-scoped RBAC step of `CreateUser`: runs only when both
`cfg.Role` and `cfg.Namespace` are non-empty. -/
def bindNamespaceAndFinish (cfg : UserConfig) (w : World) (tr : List Step) : RunResult :=
  if cfg.role ≠ "" ∧ cfg.namespaceName ≠ "" then
    match createRoleBinding w.roleBindings cfg.username cfg.groups cfg.role cfg.namespaceName with
    | (.ok _, rbs) =>
      cleanupAndFinish cfg { w with roleBindings := rbs } (tr ++ [Step.bindNamespaceRole])
    | (.error e, _) =>
      { outcome := .error (.storeFailed e), world := w, trace := tr ++ [Step.bindNamespaceRole] }
  else cleanupAndFinish cfg w tr

/-- The cluster-scoped RBAC step of `CreateUser`: runs only when
`cfg.ClusterRole` is non-empty. -/
def bindClusterAndFinish (cfg : UserConfig) (w : World) (tr : List Step) : RunResult :=
  if cfg.clusterRole ≠ "" then
    match createClusterRoleBinding w.clusterRoleBindings cfg.username cfg.groups cfg.clusterRole with
    | (.ok _, crbs) =>
      bindNamespaceAndFinish cfg { w with clusterRoleBindings := crbs } (tr ++ [Step.bindClusterRole])
    | (.error e, _) =>
      { outcome := .error (.storeFailed e), world := w, trace := tr ++ [Step.bindClusterRole] }
  else bindNamespaceAndFinish cfg w tr

/-- The state after the steps of `CreateUser` that precede the certificate
wait: the registry directory is created, the generated private key and the
CSR are persisted, and the CSR object is submitted to the cluster (any
stale one of the same name deleted first).  Approval appends a condition to
the CSR object, which this model does not track. -/
def preWaitWorld (env : Env) (cfg : UserConfig) (w : World) : World :=
  let w1 := mkdirAllUserDir w cfg.username
  let w2 := updateUserFiles w1 cfg.username (fun f => { f with keyFile := some env.keyPem })
  let w3 := updateUserFiles w2 cfg.username
    (fun f => { f with csrFile := some (createCSR cfg.username cfg.groups) })
  let csrName := cfg.username ++ "-csr"
  { w3 with csrNames := w3.csrNames.filter (fun n => !(n == csrName)) ++ [csrName] }

/-- Function `CreateUser` from user.go.  In order: create the registry directory,
generate and persist the private key, build and persist the CSR, submit the
CSR (deleting any stale one of the same name first), approve it, wait for
the certificate; on issuance persist the certificate, build and persist the
kubeconfig bundle, create the requested RBAC bindings, and finally delete
the transient CSR object. -/
def CreateUser (env : Env) (cfg : UserConfig) (w : World) : RunResult :=
  let w4 := preWaitWorld env cfg w
  match waitForCertificate env.statusCertificate 0 certTimeoutSeconds with
  | none => { outcome := .error .certificateTimeout, world := w4, trace := traceThroughWait }
  | some certPem =>
    let w5 := updateUserFiles w4 cfg.username (fun f => { f with crtFile := some certPem })
    match createKubeconfig cfg.username env.keyPem certPem env.refKubeconfig with
    | .error e =>
      { outcome := .error (.kubeconfigFailed e), world := w5,
        trace := traceThroughWait ++ [Step.persistCert, Step.buildBundle] }
    | .ok kc =>
      let w6 := updateUserFiles w5 cfg.username (fun f => { f with kubeconfigFile := some kc })
      bindClusterAndFinish cfg w6 (traceThroughWait ++ [Step.persistCert, Step.buildBundle, Step.persistBundle])

/-- Operation `CreateIdentity`: the CLI entry `runUserCreate` (cmd/user.go) followed by
`CreateUser`.  The flag validation — a role requires a namespace — runs
before the manager is even constructed, so a validation failure has no side
effect at all. -/
def CreateIdentity (env : Env) (cfg : UserConfig) (w : World) : RunResult :=
  if cfg.role ≠ "" ∧ cfg.namespaceName = "" then
    { outcome := .error (.validationFailed "--namespace is required when using --role")
      world := w, trace := [Step.validate] }
  else
    let r := CreateUser env cfg w
    { r with trace := Step.validate :: r.trace }

/-! ## Deletion (`DeleteUser`, user.go) -/

/-- Go's `strings.HasPrefix`, on the character lists of the strings. -/
def strStartsWith (pre s : String) : Bool := pre.data.isPrefixOf s.data

/-- One cluster-binding deletion of `DeleteUser`'s first loop. -/
def crbDeleteStep (acc : World) (b : Binding) : World :=
  { acc with clusterRoleBindings := acc.clusterRoleBindings.filter (fun c => !(c.name == b.name)) }

/-- One namespaced-binding deletion of `DeleteUser`'s inner loop. -/
def rbDeleteStep (ns : String) (acc : World) (b : Binding) : World :=
  { acc with roleBindings := acc.roleBindings.filter (fun p => !(p.1 == ns && p.2.name == b.name)) }

/-- The per-namespace body of `DeleteUser`'s second loop: list the
namespace's role bindings, keep those whose name starts with `{username}-`,
and delete each by name. -/
def nsDeleteStep (username : String) (acc : World) (ns : String) : World :=
  let matching := (acc.roleBindings.filter
      (fun p => p.1 == ns && strStartsWith (username ++ "-") p.2.name)).map (fun p => p.2)
  matching.foldl (rbDeleteStep ns) acc

/-- Function `DeleteUser` from user.go: best-effort removal of every cluster role
binding and namespaced role binding whose name starts with `{username}-`,
of the CSR `{username}-csr`, and of the local registry directory.  Every
sub-step's error is discarded; the function always returns success. -/
def DeleteUser (username : String) (w : World) : Except String Unit × World :=
  let matching := w.clusterRoleBindings.filter
      (fun b => strStartsWith (username ++ "-") b.name)
  let w1 := matching.foldl crbDeleteStep w
  let w2 := w1.namespaces.foldl (nsDeleteStep username) w1
  let w3 := { w2 with csrNames := w2.csrNames.filter (fun n => !(n == username ++ "-csr")) }
  let w4 :=
    if (alookup username w3.registry).isSome then
      { w3 with registry := w3.registry.filter (fun p => !(p.1 == username)) }
    else w3
  (.ok (), w4)

/-! ## Listing (`ListUsers` and `getGroupsFromCert`, user.go) -/

/-- What the certificate file of a registry entry can hold, following the
parse ladder of `getGroupsFromCert`: bytes that do not PEM-decode, bytes
whose DER does not parse as a certificate, or a parsed certificate with its
subject organization list. -/
inductive CertContent where
  | notPem
  | notCert
  | cert (org : List String)
deriving DecidableEq, Repr

/-- A registry sub-directory as `ListUsers` sees it: whether the
`{name}.kubeconfig` file is present, and the `{name}.crt` content (`none`
when the file is missing). -/
structure ListedDirFiles where
  kubeconfigPresent : Bool
  crt : Option CertContent
deriving DecidableEq, Repr

/-- An entry of the output directory: a sub-directory or a plain file. -/
inductive DirEntry where
  | dir (name : String) (files : ListedDirFiles)
  | file (name : String)
deriving DecidableEq, Repr

/-- Function `getGroupsFromCert` from user.go: "-" when the certificate file is
missing, not PEM, not parsable, or has an empty organization list;
otherwise the organizations joined with commas. -/
def getGroupsFromCert : Option CertContent → String
  | none => "-"
  | some .notPem => "-"
  | some .notCert => "-"
  | some (.cert org) => if org.length > 0 then String.intercalate "," org else "-"

/-- Errors of reading the output directory. -/
inductive ReadDirErr where
  | notExist
  | other (msg : String)
deriving DecidableEq, Repr

/-- The rows `ListUsers` prints: one per sub-directory whose kubeconfig file
exists (plain files and bundleless directories are skipped), with the group
column from `getGroupsFromCert`. -/
def ListUsersRows (entries : List DirEntry) : List (String × String) :=
  entries.filterMap (fun e =>
    match e with
    | .dir username files =>
      if files.kubeconfigPresent then some (username, getGroupsFromCert files.crt) else none
    | .file _ => none)

/-- Function `ListUsers` from user.go: a missing output directory is success with no
rows, any other read error is returned, and otherwise the rows are printed
and the function succeeds. -/
def ListUsers : Except ReadDirErr (List DirEntry) → Except ReadDirErr (List (String × String))
  | .error .notExist => .ok []
  | .error e => .error e
  | .ok entries => .ok (ListUsersRows entries)

/-! ## Concrete fixtures for witnesses and counterexamples -/

/-- A reference kubeconfig with one cluster and an active context. -/
def sampleKubeconfig : Kubeconfig :=
  { clusters := [("lab", { server := "https://lab:6443", caData := [1] })]
    authInfos := []
    contexts := [("adm@lab", { cluster := "lab", authInfo := "adm" })]
    currentContext := "adm@lab" }

/-- An environment whose CA issues the certificate at the first poll. -/
def sampleEnv : Env :=
  { keyPem := [7], statusCertificate := fun _ => [9], refKubeconfig := sampleKubeconfig }

/-- An environment whose CA never issues a certificate. -/
def sampleNoCertEnv : Env :=
  { keyPem := [7], statusCertificate := fun _ => [], refKubeconfig := sampleKubeconfig }

/-- A cluster with one namespace and nothing else. -/
def emptyWorld : World :=
  { registry := [], csrNames := [], clusterRoleBindings := []
    namespaces := ["default"], roleBindings := [] }

/-- A create request: cluster role only, no namespace role. -/
def sampleCfg : UserConfig :=
  { username := "alice", groups := ["dev"], namespaceName := ""
    clusterRole := "view", role := "", expiration := 365 }

/-- A create request asking for a namespace role without a namespace. -/
def sampleBadCfg : UserConfig :=
  { username := "mara", groups := [], namespaceName := ""
    clusterRole := "", role := "developer", expiration := 365 }

/-- A world holding the bindings of user "bob-smith", a CSR and a registry
entry of user "bob", for the deletion claims. -/
def sampleDeleteWorld : World :=
  { registry := [("bob", UserFiles.empty)]
    csrNames := ["bob-csr"]
    clusterRoleBindings := [clusterRoleBindingFor "bob-smith" [] "admin"]
    namespaces := ["default"]
    roleBindings := [("default", roleBindingFor "bob-smith" [] "edit")] }

/-! ## Helper lemmas -/

/-- The store create succeeds when no binding of the new name exists. -/
theorem apiCreateCRB_ok (store : List Binding) (b : Binding)
    (h : ∀ x ∈ store, x.name ≠ b.name) :
    apiCreateClusterRoleBinding store b = .ok (store ++ [b]) := by
  unfold apiCreateClusterRoleBinding
  have : store.any (fun x => x.name == b.name) = false := by
    simp only [List.any_eq_false, beq_iff_eq]
    exact h
  simp [this]

/-- The store create returns AlreadyExists when the name is taken. -/
theorem apiCreateCRB_exists (store : List Binding) (b : Binding)
    (h : ∃ x ∈ store, x.name = b.name) :
    apiCreateClusterRoleBinding store b = .error .alreadyExists := by
  unfold apiCreateClusterRoleBinding
  have : store.any (fun x => x.name == b.name) = true := by
    simp only [List.any_eq_true, beq_iff_eq]
    exact h
  simp [this]

/-- The namespaced store create succeeds when the name is free in the namespace. -/
theorem apiCreateRB_ok (store : List (String × Binding)) (ns : String) (b : Binding)
    (h : ∀ p ∈ store, ¬(p.1 = ns ∧ p.2.name = b.name)) :
    apiCreateRoleBinding store ns b = .ok (store ++ [(ns, b)]) := by
  unfold apiCreateRoleBinding
  have : store.any (fun x => x.1 == ns && x.2.name == b.name) = false := by
    simp only [List.any_eq_false, Bool.and_eq_true, beq_iff_eq, not_and]
    intro p hp h1 h2
    exact h p hp ⟨h1, h2⟩
  simp [this]

/-- The namespaced store create returns AlreadyExists when the name is taken. -/
theorem apiCreateRB_exists (store : List (String × Binding)) (ns : String) (b : Binding)
    (h : ∃ p ∈ store, p.1 = ns ∧ p.2.name = b.name) :
    apiCreateRoleBinding store ns b = .error .alreadyExists := by
  unfold apiCreateRoleBinding
  have : store.any (fun x => x.1 == ns && x.2.name == b.name) = true := by
    simp only [List.any_eq_true, Bool.and_eq_true, beq_iff_eq]
    obtain ⟨p, hp, h1, h2⟩ := h
    exact ⟨p, hp, h1, h2⟩
  simp [this]

/-! ## Claim C6 -/

/-- Claim C6: for every username and group list (empty permitted), the key
pair is at least 2048 bits and the signing request's subject has common
name equal to the username and organization list exactly the groups. -/
theorem createCSR_subject (u : String) (groups : List String) :
    2048 ≤ rsaKeyBits ∧
    (createCSR u groups).commonName = u ∧
    (createCSR u groups).organization = groups := by
  refine ⟨le_refl _, ?_, ?_⟩ <;> cases groups <;> simp [createCSR]

/-! ## Claim C9 -/

/-- Claim C9: the lifetime submitted to the CA is `Expiration * 86400`
seconds truncated to a signed 32-bit integer: exact for every expiration of
at most 24855 days, wrapped modulo 2^32 (and negative already at 24856
days) beyond that. -/
theorem submitCSR_expiration_wraps :
    (∀ days : Int, 0 ≤ days → days ≤ 24855 → submittedExpirationOf days = days * 86400) ∧
    (∀ days : Int, 0 ≤ days → submittedExpirationOf days % 2 ^ 32 = days * 86400 % 2 ^ 32) ∧
    submittedExpirationOf 24856 < 0 ∧
    submittedExpirationOf 24856 = 24856 * 86400 - 2 ^ 32 := by
  refine ⟨?_, ?_, by decide, by decide⟩
  · intro days h1 h2
    unfold submittedExpirationOf toInt32 expirationSecondsOf toInt64
    omega
  · intro days h1
    unfold submittedExpirationOf toInt32 expirationSecondsOf toInt64
    omega

/-! ## Claim C4 -/

/-- Claim C4: binding creation is idempotent.  Starting from stores that do
not yet hold the binding, the first call succeeds, a second call with
identical arguments also succeeds (the AlreadyExists answer is swallowed),
leaves the store unchanged, and exactly one binding object of that name
exists — for the cluster-scoped and the namespace-scoped creation alike. -/
theorem bindRole_idempotent (store : List Binding) (nstore : List (String × Binding))
    (u : String) (g : List String) (r : String) (ns : String)
    (hc : ∀ b ∈ store, b.name ≠ u ++ "-" ++ r ++ "-binding")
    (hn : ∀ p ∈ nstore, ¬(p.1 = ns ∧ p.2.name = u ++ "-" ++ r ++ "-binding")) :
    (createClusterRoleBinding store u g r).1 = .ok () ∧
    (createClusterRoleBinding (createClusterRoleBinding store u g r).2 u g r).1 = .ok () ∧
    (createClusterRoleBinding (createClusterRoleBinding store u g r).2 u g r).2 =
      (createClusterRoleBinding store u g r).2 ∧
    (((createClusterRoleBinding store u g r).2.filter
        (fun b => b.name == u ++ "-" ++ r ++ "-binding")).length = 1) ∧
    (createRoleBinding nstore u g r ns).1 = .ok () ∧
    (createRoleBinding (createRoleBinding nstore u g r ns).2 u g r ns).1 = .ok () ∧
    (createRoleBinding (createRoleBinding nstore u g r ns).2 u g r ns).2 =
      (createRoleBinding nstore u g r ns).2 ∧
    (((createRoleBinding nstore u g r ns).2.filter
        (fun p => p.1 == ns && p.2.name == u ++ "-" ++ r ++ "-binding")).length = 1) := by
  have hname : (clusterRoleBindingFor u g r).name = u ++ "-" ++ r ++ "-binding" := rfl
  have hname' : (roleBindingFor u g r).name = u ++ "-" ++ r ++ "-binding" := rfl
  have h1 : apiCreateClusterRoleBinding store (clusterRoleBindingFor u g r) =
      .ok (store ++ [clusterRoleBindingFor u g r]) := by
    apply apiCreateCRB_ok
    intro x hx
    rw [hname]
    exact hc x hx
  have h2 : apiCreateClusterRoleBinding (store ++ [clusterRoleBindingFor u g r])
      (clusterRoleBindingFor u g r) = .error .alreadyExists := by
    apply apiCreateCRB_exists
    exact ⟨clusterRoleBindingFor u g r, by simp, rfl⟩
  have h3 : apiCreateRoleBinding nstore ns (roleBindingFor u g r) =
      .ok (nstore ++ [(ns, roleBindingFor u g r)]) := by
    apply apiCreateRB_ok
    intro p hp
    rw [hname']
    exact hn p hp
  have h4 : apiCreateRoleBinding (nstore ++ [(ns, roleBindingFor u g r)]) ns
      (roleBindingFor u g r) = .error .alreadyExists := by
    apply apiCreateRB_exists
    exact ⟨(ns, roleBindingFor u g r), by simp, rfl, rfl⟩
  have hflt : (store.filter (fun b => b.name == u ++ "-" ++ r ++ "-binding")) = [] := by
    rw [List.filter_eq_nil_iff]
    intro b hb
    simp only [beq_iff_eq]
    exact hc b hb
  have hflt' : (nstore.filter (fun p => p.1 == ns && p.2.name == u ++ "-" ++ r ++ "-binding")) = [] := by
    rw [List.filter_eq_nil_iff]
    intro p hp
    simp only [Bool.and_eq_true, beq_iff_eq, not_and]
    intro ha hb
    exact hn p hp ⟨ha, hb⟩
  refine ⟨?_, ?_, ?_, ?_, ?_, ?_, ?_, ?_⟩
  · simp [createClusterRoleBinding, h1]
  · simp [createClusterRoleBinding, h1, h2, errMentionsAlreadyExists]
  · simp [createClusterRoleBinding, h1, h2, errMentionsAlreadyExists]
  · simp [createClusterRoleBinding, h1, List.filter_append, hflt, hname]
  · simp [createRoleBinding, h3]
  · simp [createRoleBinding, h3, h4, errMentionsAlreadyExists]
  · simp [createRoleBinding, h3, h4, errMentionsAlreadyExists]
  · simp [createRoleBinding, h3, List.filter_append, hflt', hname']

/-- Claim C4 witness: both creations run twice from empty stores with
concrete arguments. -/
theorem bindRole_idempotent_witness :
    (createClusterRoleBinding [] "alice" ["dev"] "view").1 = .ok () ∧
    (createClusterRoleBinding (createClusterRoleBinding [] "alice" ["dev"] "view").2
      "alice" ["dev"] "view").1 = .ok () ∧
    (createClusterRoleBinding (createClusterRoleBinding [] "alice" ["dev"] "view").2
      "alice" ["dev"] "view").2 = (createClusterRoleBinding [] "alice" ["dev"] "view").2 ∧
    (((createClusterRoleBinding [] "alice" ["dev"] "view").2.filter
        (fun b => b.name == "alice" ++ "-" ++ "view" ++ "-binding")).length = 1) ∧
    (createRoleBinding [] "alice" ["dev"] "view" "dev-ns").1 = .ok () ∧
    (createRoleBinding (createRoleBinding [] "alice" ["dev"] "view" "dev-ns").2
      "alice" ["dev"] "view" "dev-ns").1 = .ok () ∧
    (createRoleBinding (createRoleBinding [] "alice" ["dev"] "view" "dev-ns").2
      "alice" ["dev"] "view" "dev-ns").2 = (createRoleBinding [] "alice" ["dev"] "view" "dev-ns").2 ∧
    (((createRoleBinding [] "alice" ["dev"] "view" "dev-ns").2.filter
        (fun p => p.1 == "dev-ns" && p.2.name == "alice" ++ "-" ++ "view" ++ "-binding")).length = 1) :=
  bindRole_idempotent [] [] "alice" ["dev"] "view" "dev-ns" (by simp) (by simp)

/-! ## Claim C5 -/

/-- Claim C5: building the bundle fails whenever the reference bundle
selects no active cluster context; otherwise it succeeds and the produced
bundle has exactly one cluster entry, exactly one credential entry holding
the client certificate and key, and exactly one context, named
`{username}@{clusterName}` and marked current. -/
theorem createKubeconfig_shape (u : String) (keyData certData : List Nat) (ref : Kubeconfig) :
    (activeClusterOf ref = none →
      ∃ msg, createKubeconfig u keyData certData ref = .error msg) ∧
    (∀ clusterName cl, activeClusterOf ref = some (clusterName, cl) →
      createKubeconfig u keyData certData ref = .ok
        { clusters := [(clusterName, { server := cl.server, caData := cl.caData })]
          authInfos := [(u, { certData := certData, keyData := keyData })]
          contexts := [(u ++ "@" ++ clusterName, { cluster := clusterName, authInfo := u })]
          currentContext := u ++ "@" ++ clusterName }) := by
  unfold activeClusterOf createKubeconfig
  by_cases hc : ref.currentContext = ""
  · simp [hc]
  · rw [if_neg hc, if_neg hc]
    cases h1 : alookup ref.currentContext ref.contexts with
    | none => simp [h1]
    | some ctx =>
      cases h2 : alookup ctx.cluster ref.clusters with
      | none => simp [h1, h2]
      | some cl =>
        simp only [h1, h2]
        refine ⟨by simp, ?_⟩
        intro clusterName cl' h
        simp only [Option.some.injEq, Prod.mk.injEq] at h
        obtain ⟨h3, h4⟩ := h
        subst h3
        subst h4
        rfl

/-! ## Claim C10 -/

/-- Claim C10: listing is total over malformed registry content.  On a
readable directory it always succeeds; exactly the sub-directories whose
kubeconfig file exists are reported; and any entry whose certificate file
is missing, not PEM-decodable, not parsable, or has an empty organization
list shows the placeholder "-" as its group list. -/
theorem listUsers_total (entries : List DirEntry) :
    ListUsers (.ok entries) = .ok (ListUsersRows entries) ∧
    (∀ u g, (u, g) ∈ ListUsersRows entries ↔
      ∃ files, DirEntry.dir u files ∈ entries ∧ files.kubeconfigPresent = true ∧
        g = getGroupsFromCert files.crt) ∧
    (∀ c : Option CertContent,
      (c = none ∨ c = some .notPem ∨ c = some .notCert ∨ c = some (.cert [])) →
      getGroupsFromCert c = "-") := by
  refine ⟨rfl, ?_, ?_⟩
  · intro u g
    unfold ListUsersRows
    rw [List.mem_filterMap]
    constructor
    · rintro ⟨e, he, hf⟩
      cases e with
      | dir name files =>
        by_cases hk : files.kubeconfigPresent
        · simp only [hk, if_true] at hf
          obtain ⟨rfl, rfl⟩ : name = u ∧ getGroupsFromCert files.crt = g := by
            constructor <;> injection hf with h' <;> cases h' <;> rfl
          exact ⟨files, he, hk, rfl⟩
        · simp [hk] at hf
      | file name => simp at hf
    · rintro ⟨files, he, hk, rfl⟩
      exact ⟨DirEntry.dir u files, he, by simp [hk]⟩
  · rintro c (rfl | rfl | rfl | rfl) <;> rfl

/-! ## Claim C2 -/

/-- Claim C2: a configuration with a non-empty role and an empty namespace
fails validation before any side effect: the error is the validation error,
the world (in particular the registry) is untouched, no key-generation step
is reached, and a previously absent registry directory stays absent. -/
theorem createIdentity_validation (env : Env) (cfg : UserConfig) (w : World)
    (h1 : cfg.role ≠ "") (h2 : cfg.namespaceName = "") :
    (CreateIdentity env cfg w).outcome =
      .error (.validationFailed "--namespace is required when using --role") ∧
    (CreateIdentity env cfg w).world = w ∧
    (CreateIdentity env cfg w).trace = [Step.validate] ∧
    Step.genKey ∉ (CreateIdentity env cfg w).trace ∧
    (alookup cfg.username w.registry = none →
      alookup cfg.username (CreateIdentity env cfg w).world.registry = none) := by
  have hcond : cfg.role ≠ "" ∧ cfg.namespaceName = "" := ⟨h1, h2⟩
  unfold CreateIdentity
  rw [if_pos hcond]
  exact ⟨rfl, rfl, rfl, by simp, fun h => h⟩

/-- Claim C2 witness: the validation failure at a concrete configuration
with role "developer" and empty namespace, in an empty registry. -/
theorem createIdentity_validation_witness :
    (CreateIdentity sampleEnv sampleBadCfg emptyWorld).outcome =
      .error (.validationFailed "--namespace is required when using --role") ∧
    (CreateIdentity sampleEnv sampleBadCfg emptyWorld).world = emptyWorld ∧
    (CreateIdentity sampleEnv sampleBadCfg emptyWorld).trace = [Step.validate] ∧
    Step.genKey ∉ (CreateIdentity sampleEnv sampleBadCfg emptyWorld).trace ∧
    (alookup sampleBadCfg.username emptyWorld.registry = none →
      alookup sampleBadCfg.username
        (CreateIdentity sampleEnv sampleBadCfg emptyWorld).world.registry = none) :=
  createIdentity_validation sampleEnv sampleBadCfg emptyWorld (by decide) rfl

/-! ## Lemmas about the certificate wait and the registry -/

/-- When the CA exposes no certificate bytes at any poll before the
deadline, the wait loop returns `none` (the timeout). -/
theorem waitForCertificate_none (f : Nat → List Nat) :
    ∀ (fuel now : Nat), (∀ t, now ≤ t → t < now + fuel → f t = []) →
    waitForCertificate f now fuel = none := by
  intro fuel
  induction fuel with
  | zero => intro now _; rfl
  | succ k ih =>
    intro now h
    have h0 : f now = [] := h now le_rfl (by omega)
    have step : waitForCertificate f now (k + 1) =
        if (f now).length > 0 then some (f now) else waitForCertificate f (now + 1) k := rfl
    rw [step, h0]
    simp only [List.length_nil, gt_iff_lt, lt_self_iff_false, if_false]
    exact ih (now + 1) (fun t ht1 ht2 => h t (by omega) (by omega))

/-- Lookup distributes over list append. -/
theorem alookup_append {α : Type} (k : String) (l1 l2 : List (String × α)) :
    alookup k (l1 ++ l2) = match alookup k l1 with
      | some v => some v
      | none => alookup k l2 := by
  induction l1 with
  | nil => simp [alookup]
  | cons p t ih =>
    obtain ⟨k', a⟩ := p
    by_cases h : k' = k <;> simp [alookup, h, ih]

/-- Lookup after the in-place file update of `updateUserFiles`. -/
theorem alookup_updateReg {α : Type} (u v : String) (fn : α → α) (l : List (String × α)) :
    alookup v (updateReg u fn l) =
      if v = u then Option.map fn (alookup v l) else alookup v l := by
  induction l with
  | nil => by_cases h : v = u <;> simp [updateReg, alookup, h]
  | cons p t ih =>
    obtain ⟨k, a⟩ := p
    by_cases hku : k = u <;> by_cases hkv : k = v
    · have hvu : v = u := by rw [← hkv, hku]
      simp [updateReg, alookup, hku, hkv, hvu]
    · have huv : ¬ u = v := by rw [← hku]; exact hkv
      have hvu : ¬ v = u := fun h => huv h.symm
      simp [updateReg, alookup, hku, hkv, huv, hvu, ih]
    · have hvu : ¬ v = u := by rw [← hkv]; exact hku
      simp [updateReg, alookup, hku, hkv, hvu]
    · simp [updateReg, alookup, hku, hkv, ih]

/-- Creating the registry directory does not make a bundle file appear. -/
theorem bundleFileExists_mkdirAll (w : World) (u v : String) :
    bundleFileExists (mkdirAllUserDir w u) v = bundleFileExists w v := by
  unfold mkdirAllUserDir bundleFileExists
  by_cases h : (alookup u w.registry).isSome
  · rw [if_pos h]
  · rw [if_neg h]
    show (match alookup v (w.registry ++ [(u, UserFiles.empty)]) with
      | some f => f.kubeconfigFile.isSome
      | none => false) = _
    rw [alookup_append]
    cases hv : alookup v w.registry with
    | some f => rfl
    | none =>
      by_cases huv : u = v
      · subst huv
        simp [alookup, UserFiles.empty]
      · simp [alookup, huv]

/-- A file write that leaves the kubeconfig slot alone does not change
whether the bundle file exists. -/
theorem bundleFileExists_update (w : World) (u v : String) (fn : UserFiles → UserFiles)
    (h : ∀ f, (fn f).kubeconfigFile = f.kubeconfigFile) :
    bundleFileExists (updateUserFiles w u fn) v = bundleFileExists w v := by
  unfold updateUserFiles bundleFileExists
  show (match alookup v (updateReg u fn w.registry) with
    | some f => f.kubeconfigFile.isSome
    | none => false) = _
  rw [alookup_updateReg]
  by_cases hvu : v = u
  · rw [if_pos hvu]
    cases alookup v w.registry with
    | some f => simp [h f]
    | none => rfl
  · rw [if_neg hvu]

/-- None of the steps before the certificate wait writes a bundle file. -/
theorem bundleFileExists_preWait (env : Env) (cfg : UserConfig) (w : World) (v : String) :
    bundleFileExists (preWaitWorld env cfg w) v = bundleFileExists w v := by
  unfold preWaitWorld
  have hcsr : ∀ (w' : World) x, bundleFileExists { w' with csrNames := x } v = bundleFileExists w' v :=
    fun w' x => rfl
  rw [hcsr]
  rw [bundleFileExists_update _ cfg.username v
    (fun f => { f with csrFile := some (createCSR cfg.username cfg.groups) }) (fun f => rfl)]
  rw [bundleFileExists_update _ cfg.username v
    (fun f => { f with keyFile := some env.keyPem }) (fun f => rfl)]
  exact bundleFileExists_mkdirAll w cfg.username v

/-! ## Claim C3 -/

/-- Claim C3: when the CA never exposes certificate bytes before the
30-second deadline, creation fails with the certificate-timeout error, the
trace stops at the certificate wait (every later step is skipped), and a
username that had no bundle file before the run has none afterward. -/
theorem createIdentity_timeout (env : Env) (cfg : UserConfig) (w : World)
    (hval : ¬(cfg.role ≠ "" ∧ cfg.namespaceName = ""))
    (hnever : ∀ t, t < certTimeoutSeconds → env.statusCertificate t = [])
    (hfresh : bundleFileExists w cfg.username = false) :
    (CreateIdentity env cfg w).outcome = .error .certificateTimeout ∧
    (CreateIdentity env cfg w).trace = Step.validate :: traceThroughWait ∧
    bundleFileExists (CreateIdentity env cfg w).world cfg.username = false := by
  have hwait : waitForCertificate env.statusCertificate 0 certTimeoutSeconds = none :=
    waitForCertificate_none _ certTimeoutSeconds 0 (fun t _ ht2 => hnever t (by omega))
  unfold CreateIdentity
  rw [if_neg hval]
  unfold CreateUser
  simp only [hwait]
  refine ⟨by trivial, by trivial, ?_⟩
  rw [bundleFileExists_preWait]
  exact hfresh

/-- Claim C3 witness: a concrete run against a CA that never issues, from an
empty registry. -/
theorem createIdentity_timeout_witness :
    (CreateIdentity sampleNoCertEnv sampleCfg emptyWorld).outcome = .error .certificateTimeout ∧
    (CreateIdentity sampleNoCertEnv sampleCfg emptyWorld).trace = Step.validate :: traceThroughWait ∧
    bundleFileExists (CreateIdentity sampleNoCertEnv sampleCfg emptyWorld).world
      sampleCfg.username = false :=
  createIdentity_timeout sampleNoCertEnv sampleCfg emptyWorld (by decide)
    (fun t _ => rfl) rfl

/-! ## Lemmas for the creation order -/

/-- When the reference bundle selects an active cluster, the bundle build
succeeds (with the isolated single-cluster config). -/
theorem createKubeconfig_ok_of_active (u : String) (k c : List Nat) (ref : Kubeconfig)
    (n : String) (cl : KubeCluster) (h : activeClusterOf ref = some (n, cl)) :
    createKubeconfig u k c ref = .ok
      { clusters := [(n, { server := cl.server, caData := cl.caData })]
        authInfos := [(u, { certData := c, keyData := k })]
        contexts := [(u ++ "@" ++ n, { cluster := n, authInfo := u })]
        currentContext := u ++ "@" ++ n } := by
  unfold activeClusterOf at h
  unfold createKubeconfig
  by_cases hc : ref.currentContext = ""
  · rw [if_pos hc] at h; cases h
  · rw [if_neg hc] at h
    rw [if_neg hc]
    cases h1 : alookup ref.currentContext ref.contexts with
    | none => rw [h1] at h; cases h
    | some ctx =>
      rw [h1] at h
      cases h2 : alookup ctx.cluster ref.clusters with
      | none =>
        simp only [h2] at h
        cases h
      | some cl' =>
        simp only [h2, Option.some.injEq, Prod.mk.injEq] at h
        obtain ⟨h3, h4⟩ := h
        simp only [h2]
        subst h3
        subst h4
        rfl

/-- In this model the authorization store only ever rejects a create with
AlreadyExists, which `createClusterRoleBinding` swallows, so the
cluster-scoped binding step always reports success. -/
theorem createClusterRoleBinding_ok (s : List Binding) (u : String) (g : List String) (r : String) :
    ∃ t, createClusterRoleBinding s u g r = (.ok (), t) := by
  unfold createClusterRoleBinding apiCreateClusterRoleBinding
  by_cases h : s.any (fun x => x.name == (clusterRoleBindingFor u g r).name)
  · rw [if_pos h]
    exact ⟨s, rfl⟩
  · rw [if_neg h]
    exact ⟨s ++ [clusterRoleBindingFor u g r], rfl⟩

/-- The namespace-scoped binding step likewise always reports success. -/
theorem createRoleBinding_ok (s : List (String × Binding)) (u : String) (g : List String)
    (r : String) (ns : String) :
    ∃ t, createRoleBinding s u g r ns = (.ok (), t) := by
  unfold createRoleBinding apiCreateRoleBinding
  by_cases h : s.any (fun x => x.1 == ns && x.2.name == (roleBindingFor u g r).name)
  · rw [if_pos h]
    exact ⟨s, rfl⟩
  · rw [if_neg h]
    exact ⟨s ++ [(ns, roleBindingFor u g r)], rfl⟩

/-- The tail of a successful run after the bundle is persisted: both RBAC
steps report success, so the trace appends the requested binding steps and
the CSR cleanup, and the run succeeds. -/
theorem bindClusterAndFinish_trace (cfg : UserConfig) (w : World) (tr : List Step) :
    (bindClusterAndFinish cfg w tr).trace =
      tr ++ (if cfg.clusterRole ≠ "" then [Step.bindClusterRole] else [])
         ++ (if cfg.role ≠ "" ∧ cfg.namespaceName ≠ "" then [Step.bindNamespaceRole] else [])
         ++ [Step.cleanupCSR] ∧
    (bindClusterAndFinish cfg w tr).outcome = .ok () := by
  unfold bindClusterAndFinish bindNamespaceAndFinish cleanupAndFinish
  obtain ⟨t1, ht1⟩ := createClusterRoleBinding_ok w.clusterRoleBindings
    cfg.username cfg.groups cfg.clusterRole
  obtain ⟨t2, ht2⟩ := createRoleBinding_ok w.roleBindings
    cfg.username cfg.groups cfg.role cfg.namespaceName
  by_cases hcr : cfg.clusterRole ≠ "" <;>
    by_cases hrn : cfg.role ≠ "" ∧ cfg.namespaceName ≠ ""
  · simp only [if_pos hcr, if_pos hrn, ht1, ht2]
    simp [List.append_assoc]
  · simp only [if_pos hcr, if_neg hrn, ht1]
    simp [List.append_assoc]
  · simp only [if_neg hcr, if_pos hrn, ht2]
    simp [List.append_assoc]
  · simp only [if_neg hcr, if_neg hrn]
    simp [List.append_assoc]

/-! ## Claim C1 -/

/-- Claim C1 counterexample: in a successful concrete run the private key
(and the CSR) are persisted to the registry strictly before the
certificate-wait step, refuting the claim that no persistence to the
registry happens before the certificate wait completes. -/
theorem createIdentity_persists_before_wait :
    Step.persistKey ∈ ((CreateIdentity sampleEnv sampleCfg emptyWorld).trace.takeWhile
      (fun s => !(s == Step.waitCert))) ∧
    (CreateIdentity sampleEnv sampleCfg emptyWorld).outcome = .ok () := by
  constructor
  · decide
  · rfl

/-- Claim C1 (amended): under a passing validation, a certificate issued in
time and a usable reference bundle, the run executes validate, create the
registry directory, generate the key, persist the key, build the CSR,
persist the CSR, submit, approve, wait for the certificate, persist the
certificate, build and persist the bundle, bind the cluster role if
requested, bind the namespace role if requested with a namespace, and clean
up the transient CSR — i.e. the spec's order except that the key and CSR
are persisted to the registry before the certificate wait, not after it. -/
theorem createIdentity_actual_order (env : Env) (cfg : UserConfig) (w : World)
    (hval : ¬(cfg.role ≠ "" ∧ cfg.namespaceName = ""))
    (hcert : (waitForCertificate env.statusCertificate 0 certTimeoutSeconds).isSome = true)
    (hready : activeClusterOf env.refKubeconfig ≠ none) :
    (CreateIdentity env cfg w).trace =
      [Step.validate, Step.mkdirRegistry, Step.genKey, Step.persistKey, Step.buildCSR,
       Step.persistCSR, Step.submitCSR, Step.approveCSR, Step.waitCert, Step.persistCert,
       Step.buildBundle, Step.persistBundle]
        ++ (if cfg.clusterRole ≠ "" then [Step.bindClusterRole] else [])
        ++ (if cfg.role ≠ "" ∧ cfg.namespaceName ≠ "" then [Step.bindNamespaceRole] else [])
        ++ [Step.cleanupCSR] ∧
    (CreateIdentity env cfg w).outcome = .ok () := by
  obtain ⟨cert, hwait⟩ := Option.isSome_iff_exists.mp hcert
  obtain ⟨n, cl, hact⟩ : ∃ n cl, activeClusterOf env.refKubeconfig = some (n, cl) := by
    cases hx : activeClusterOf env.refKubeconfig with
    | none => exact absurd hx hready
    | some p => exact ⟨p.1, p.2, rfl⟩
  have hkc := createKubeconfig_ok_of_active cfg.username env.keyPem cert env.refKubeconfig n cl hact
  unfold CreateIdentity
  rw [if_neg hval]
  unfold CreateUser
  simp only [hwait, hkc]
  refine ⟨?_, ?_⟩
  · rw [(bindClusterAndFinish_trace cfg _ _).1]
    unfold traceThroughWait
    simp [List.append_assoc]
  · exact (bindClusterAndFinish_trace cfg _ _).2

/-- Claim C1 witness: the amended order at a concrete successful run (cluster
role requested, no namespace role). -/
theorem createIdentity_actual_order_witness :
    (CreateIdentity sampleEnv sampleCfg emptyWorld).trace =
      [Step.validate, Step.mkdirRegistry, Step.genKey, Step.persistKey, Step.buildCSR,
       Step.persistCSR, Step.submitCSR, Step.approveCSR, Step.waitCert, Step.persistCert,
       Step.buildBundle, Step.persistBundle]
        ++ (if sampleCfg.clusterRole ≠ "" then [Step.bindClusterRole] else [])
        ++ (if sampleCfg.role ≠ "" ∧ sampleCfg.namespaceName ≠ "" then [Step.bindNamespaceRole] else [])
        ++ [Step.cleanupCSR] ∧
    (CreateIdentity sampleEnv sampleCfg emptyWorld).outcome = .ok () :=
  createIdentity_actual_order sampleEnv sampleCfg emptyWorld (by decide) (by decide) (by decide)

/-! ## Lemmas about deletion's best-effort loops -/

/-- A string starts with itself followed by anything. -/
theorem strStartsWith_append (a b : String) : strStartsWith a (a ++ b) = true := by
  unfold strStartsWith
  rw [String.data_append a b]
  simp [ List.isPrefixOf_iff_prefix]

/-- Deleting cluster bindings by name only removes elements. -/
theorem mem_crbFold (L : List Binding) :
    ∀ (w : World) (b : Binding),
      b ∈ (L.foldl crbDeleteStep w).clusterRoleBindings → b ∈ w.clusterRoleBindings := by
  induction L with
  | nil => intro w b hb; exact hb
  | cons x t ih =>
    intro w b hb
    have := ih (crbDeleteStep w x) b hb
    unfold crbDeleteStep at this
    exact List.mem_of_mem_filter this

/-- The cluster-binding loop leaves every other field of the world alone. -/
theorem crbFold_frame (L : List Binding) :
    ∀ (w : World),
      (L.foldl crbDeleteStep w).namespaces = w.namespaces ∧
      (L.foldl crbDeleteStep w).roleBindings = w.roleBindings ∧
      (L.foldl crbDeleteStep w).csrNames = w.csrNames ∧
      (L.foldl crbDeleteStep w).registry = w.registry := by
  induction L with
  | nil => intro w; exact ⟨rfl, rfl, rfl, rfl⟩
  | cons x t ih =>
    intro w
    exact ih (crbDeleteStep w x)

/-- After the loop has deleted by the name of each listed binding, no
binding bearing a listed name remains. -/
theorem crbFold_kill (L : List Binding) :
    ∀ (w : World) (x : Binding), x ∈ L →
      ∀ b ∈ (L.foldl crbDeleteStep w).clusterRoleBindings, ¬ b.name = x.name := by
  induction L with
  | nil => intro w x hx; cases hx
  | cons y t ih =>
    intro w x hx b hb
    rcases List.mem_cons.mp hx with h | h
    · subst h
      have hbmem := mem_crbFold t (crbDeleteStep w x) b hb
      unfold crbDeleteStep at hbmem
      have := List.of_mem_filter hbmem
      simp only [Bool.not_eq_true', beq_eq_false_iff_ne, ne_eq] at this
      exact this
    · exact ih (crbDeleteStep w y) x h b hb

/-- After the first loop of `DeleteUser`, no cluster binding whose name
starts with `{username}-` remains. -/
theorem crbFold_clean (u : String) (w : World) :
    ∀ b ∈ ((w.clusterRoleBindings.filter (fun b => strStartsWith (u ++ "-") b.name)).foldl
        crbDeleteStep w).clusterRoleBindings,
      strStartsWith (u ++ "-") b.name = false := by
  intro b hb
  by_contra hpre
  have hpre' : strStartsWith (u ++ "-") b.name = true := by
    cases h : strStartsWith (u ++ "-") b.name with
    | true => rfl
    | false => exact absurd h hpre
  have hbw : b ∈ w.clusterRoleBindings := mem_crbFold _ _ _ hb
  have hbm : b ∈ w.clusterRoleBindings.filter (fun b => strStartsWith (u ++ "-") b.name) :=
    List.mem_filter.mpr ⟨hbw, hpre'⟩
  exact crbFold_kill _ _ b hbm b hb rfl

/-- Deleting namespaced bindings by name only removes elements. -/
theorem mem_rbFold (M : List Binding) (ns : String) :
    ∀ (acc : World) (p : String × Binding),
      p ∈ (M.foldl (rbDeleteStep ns) acc).roleBindings → p ∈ acc.roleBindings := by
  induction M with
  | nil => intro acc p hp; exact hp
  | cons x t ih =>
    intro acc p hp
    have := ih (rbDeleteStep ns acc x) p hp
    unfold rbDeleteStep at this
    exact List.mem_of_mem_filter this

/-- The namespaced-binding loop leaves the other fields alone. -/
theorem rbFold_frame (M : List Binding) (ns : String) :
    ∀ (acc : World),
      (M.foldl (rbDeleteStep ns) acc).clusterRoleBindings = acc.clusterRoleBindings ∧
      (M.foldl (rbDeleteStep ns) acc).namespaces = acc.namespaces ∧
      (M.foldl (rbDeleteStep ns) acc).csrNames = acc.csrNames ∧
      (M.foldl (rbDeleteStep ns) acc).registry = acc.registry := by
  induction M with
  | nil => intro acc; exact ⟨rfl, rfl, rfl, rfl⟩
  | cons x t ih =>
    intro acc
    exact ih (rbDeleteStep ns acc x)

/-- After deleting by each listed name within `ns`, no pair in `ns` bears a
listed name. -/
theorem rbFold_kill (M : List Binding) (ns : String) :
    ∀ (acc : World) (x : Binding), x ∈ M →
      ∀ p ∈ (M.foldl (rbDeleteStep ns) acc).roleBindings, ¬(p.1 = ns ∧ p.2.name = x.name) := by
  induction M with
  | nil => intro acc x hx; cases hx
  | cons y t ih =>
    intro acc x hx p hp
    rcases List.mem_cons.mp hx with h | h
    · subst h
      have hpmem := mem_rbFold t ns (rbDeleteStep ns acc x) p hp
      unfold rbDeleteStep at hpmem
      have := List.of_mem_filter hpmem
      simp only [Bool.not_eq_true', Bool.and_eq_false_iff, beq_eq_false_iff_ne, ne_eq] at this
      rintro ⟨h1, h2⟩
      rcases this with h' | h'
      · exact h' h1
      · exact h' h2
    · exact ih (rbDeleteStep ns acc y) x h p hp

/-- One pass of the per-namespace deletion removes every binding of that
namespace whose name starts with `{username}-`. -/
theorem nsStep_kill (u : String) (acc : World) (ns : String) :
    ∀ p ∈ (nsDeleteStep u acc ns).roleBindings, p.1 = ns →
      strStartsWith (u ++ "-") p.2.name = false := by
  intro p hp hp1
  by_contra hpre
  have hpre' : strStartsWith (u ++ "-") p.2.name = true := by
    cases h : strStartsWith (u ++ "-") p.2.name with
    | true => rfl
    | false => exact absurd h hpre
  have hpacc : p ∈ acc.roleBindings := mem_rbFold _ _ _ _ hp
  have hpm : p ∈ acc.roleBindings.filter
      (fun q => q.1 == ns && strStartsWith (u ++ "-") q.2.name) :=
    List.mem_filter.mpr ⟨hpacc, by simp [hp1, hpre']⟩
  have hx : p.2 ∈ (acc.roleBindings.filter
      (fun q => q.1 == ns && strStartsWith (u ++ "-") q.2.name)).map (fun q => q.2) :=
    List.mem_map.mpr ⟨p, hpm, rfl⟩
  exact rbFold_kill _ ns acc p.2 hx p hp ⟨hp1, rfl⟩

/-- Membership in the result of the namespace loop implies membership before it. -/
theorem mem_nsFold (u : String) (L : List String) :
    ∀ (acc : World) (p : String × Binding),
      p ∈ (L.foldl (nsDeleteStep u) acc).roleBindings → p ∈ acc.roleBindings := by
  induction L with
  | nil => intro acc p hp; exact hp
  | cons ns t ih =>
    intro acc p hp
    exact mem_rbFold _ _ _ _ (ih (nsDeleteStep u acc ns) p hp)

/-- The namespace loop leaves the cluster bindings (and the namespace list)
alone. -/
theorem nsFold_frame (u : String) (L : List String) :
    ∀ (acc : World),
      (L.foldl (nsDeleteStep u) acc).clusterRoleBindings = acc.clusterRoleBindings ∧
      (L.foldl (nsDeleteStep u) acc).namespaces = acc.namespaces ∧
      (L.foldl (nsDeleteStep u) acc).csrNames = acc.csrNames ∧
      (L.foldl (nsDeleteStep u) acc).registry = acc.registry := by
  induction L with
  | nil => intro acc; exact ⟨rfl, rfl, rfl, rfl⟩
  | cons ns t ih =>
    intro acc
    obtain ⟨a1, a2, a3, a4⟩ := ih (nsDeleteStep u acc ns)
    obtain ⟨b1, b2, b3, b4⟩ := rbFold_frame
      ((acc.roleBindings.filter
        (fun q => q.1 == ns && strStartsWith (u ++ "-") q.2.name)).map (fun q => q.2)) ns acc
    exact ⟨a1.trans b1, a2.trans b2, a3.trans b3, a4.trans b4⟩

/-- After the whole namespace loop, every listed namespace is free of
bindings whose name starts with `{username}-`. -/
theorem nsFold_kill (u : String) (L : List String) :
    ∀ (acc : World) (ns : String), ns ∈ L →
      ∀ p ∈ (L.foldl (nsDeleteStep u) acc).roleBindings, p.1 = ns →
        strStartsWith (u ++ "-") p.2.name = false := by
  induction L with
  | nil => intro acc ns hns; cases hns
  | cons a t ih =>
    intro acc ns hns p hp hp1
    rcases List.mem_cons.mp hns with h | h
    · subst h
      have hpmid : p ∈ (nsDeleteStep u acc ns).roleBindings := mem_nsFold u t _ p hp
      exact nsStep_kill u acc ns p hpmid hp1
    · exact ih (nsDeleteStep u acc a) ns h p hp hp1

/-- A namespace pass is the identity when no binding matches the user. -/
theorem nsStep_id (u : String) (acc : World) (ns : String)
    (h : ∀ p ∈ acc.roleBindings, strStartsWith (u ++ "-") p.2.name = false) :
    nsDeleteStep u acc ns = acc := by
  unfold nsDeleteStep
  have hnil : acc.roleBindings.filter
      (fun q => q.1 == ns && strStartsWith (u ++ "-") q.2.name) = [] :=
    List.filter_eq_nil_iff.mpr (fun p hp => by simp [h p hp])
  rw [hnil]
  rfl

/-- The whole namespace loop is the identity when no binding matches. -/
theorem nsFold_id (u : String) (L : List String) (acc : World)
    (h : ∀ p ∈ acc.roleBindings, strStartsWith (u ++ "-") p.2.name = false) :
    L.foldl (nsDeleteStep u) acc = acc := by
  induction L with
  | nil => rfl
  | cons ns t ih =>
    rw [List.foldl_cons, nsStep_id u acc ns h]
    exact ih

/-- The bindings of the world `DeleteUser` returns are those left by its two
deletion loops (the CSR and registry steps touch neither field). -/
theorem deleteUser_world_bindings (u : String) (w : World) :
    (DeleteUser u w).2.clusterRoleBindings =
      (((w.clusterRoleBindings.filter (fun b => strStartsWith (u ++ "-") b.name)).foldl
          crbDeleteStep w).namespaces.foldl (nsDeleteStep u)
        ((w.clusterRoleBindings.filter (fun b => strStartsWith (u ++ "-") b.name)).foldl
          crbDeleteStep w)).clusterRoleBindings ∧
    (DeleteUser u w).2.roleBindings =
      (((w.clusterRoleBindings.filter (fun b => strStartsWith (u ++ "-") b.name)).foldl
          crbDeleteStep w).namespaces.foldl (nsDeleteStep u)
        ((w.clusterRoleBindings.filter (fun b => strStartsWith (u ++ "-") b.name)).foldl
          crbDeleteStep w)).roleBindings := by
  unfold DeleteUser
  dsimp only
  constructor
  · split <;> rfl
  · split <;> rfl

/-! ## Claim C7 -/

/-- Claim C7: deletion always reports success, for any username against any
cluster state — every sub-step's error is swallowed — and deleting an
identity that left no artifacts (no matching bindings, no CSR, no registry
directory) changes nothing at all. -/
theorem deleteIdentity_total (u : String) (w : World) :
    (DeleteUser u w).1 = .ok () ∧
    ((∀ b ∈ w.clusterRoleBindings, strStartsWith (u ++ "-") b.name = false) →
     (∀ p ∈ w.roleBindings, strStartsWith (u ++ "-") p.2.name = false) →
     (u ++ "-csr") ∉ w.csrNames →
     alookup u w.registry = none →
     (DeleteUser u w).2 = w) := by
  constructor
  · rfl
  · intro h1 h2 h3 h4
    have hm : w.clusterRoleBindings.filter (fun b => strStartsWith (u ++ "-") b.name) = [] :=
      List.filter_eq_nil_iff.mpr (fun b hb => by simp [h1 b hb])
    have hcsr : w.csrNames.filter (fun n => !(n == u ++ "-csr")) = w.csrNames := by
      apply List.filter_eq_self.mpr
      intro n hn
      have hne : n ≠ u ++ "-csr" := fun he => h3 (he ▸ hn)
      simp [hne]
    unfold DeleteUser
    rw [hm]
    simp only [List.foldl_nil]
    rw [nsFold_id u w.namespaces w h2]
    simp [hcsr, h4]

/-! ## Claim C8 -/

/-- Claim C8: deletion matches bindings by the bare name prefix
`{username}-`, so deleting user `u1` also removes every cluster-scoped and
namespace-scoped binding of any user `u1-…`: afterwards no binding named
`{u1-rest}-{role}-binding` survives anywhere (for namespaced bindings, in
any listed namespace). -/
theorem deleteUser_prefix_overreach (u1 rest role ns : String) (w : World)
    (hns : ns ∈ w.namespaces) :
    (∀ b ∈ (DeleteUser u1 w).2.clusterRoleBindings,
        b.name ≠ u1 ++ "-" ++ rest ++ "-" ++ role ++ "-binding") ∧
    (∀ p ∈ (DeleteUser u1 w).2.roleBindings,
        ¬(p.1 = ns ∧ p.2.name = u1 ++ "-" ++ rest ++ "-" ++ role ++ "-binding")) := by
  have he : u1 ++ "-" ++ rest ++ "-" ++ role ++ "-binding"
      = (u1 ++ "-") ++ (rest ++ "-" ++ role ++ "-binding") := by
    simp [String.append_assoc]
  have hpre : strStartsWith (u1 ++ "-")
      (u1 ++ "-" ++ rest ++ "-" ++ role ++ "-binding") = true := by
    rw [he]
    exact strStartsWith_append _ _
  obtain ⟨hcrbs, hrbs⟩ := deleteUser_world_bindings u1 w
  constructor
  · intro b hb hname
    rw [hcrbs] at hb
    rw [(nsFold_frame u1 _ _).1] at hb
    have hclean := crbFold_clean u1 w b hb
    rw [hname, hpre] at hclean
    exact Bool.noConfusion hclean
  · rintro p hp ⟨hp1, hp2⟩
    rw [hrbs] at hp
    have hns' : ns ∈ ((w.clusterRoleBindings.filter
        (fun b => strStartsWith (u1 ++ "-") b.name)).foldl crbDeleteStep w).namespaces := by
      rw [(crbFold_frame _ _).1]
      exact hns
    have hk := nsFold_kill u1 _ _ ns hns' p hp hp1
    rw [hp2, hpre] at hk
    exact Bool.noConfusion hk

/-- Claim C8 witness: deleting "bob" in a world holding the bindings of
"bob-smith" removes them. -/
theorem deleteUser_prefix_overreach_witness :
    (∀ b ∈ (DeleteUser "bob" sampleDeleteWorld).2.clusterRoleBindings,
        b.name ≠ "bob" ++ "-" ++ "smith" ++ "-" ++ "admin" ++ "-binding") ∧
    (∀ p ∈ (DeleteUser "bob" sampleDeleteWorld).2.roleBindings,
        ¬(p.1 = "default" ∧
          p.2.name = "bob" ++ "-" ++ "smith" ++ "-" ++ "admin" ++ "-binding")) :=
  deleteUser_prefix_overreach "bob" "smith" "admin" "default" sampleDeleteWorld (by decide)
